import Mathlib

/-!
Verification of the schema validate-and-repair subsystem of the repository
(`src/schema/schema_manager.py` and the schema-generation part of
`src/agents/unconfigured_agent.py`).

The Python code is shallowly embedded as pure Lean functions.  Effectful
collaborators are passed in explicitly:

* the external `prisma validate` subprocess is an oracle value of type
  `SubprocessOutcome` (one value per invocation, indexed by call number);
* the LLM client's `chat_completion` is an oracle
  `ChatOracle : String → String → Except Unit String`, where `Except.error`
  models a raised exception and `Option ChatOracle` models the possibly
  missing `llm_client`;
* the filesystem holding the persistent schema artifact is an explicit
  `FS` state; Python's `open(path, "w")` raising `FileNotFoundError` when
  the parent directory is absent is modelled by `set_schema` returning
  `Except.error`;
* a Python `NameError` escaping `validate_schema` (the unbound local
  `error_message`) is modelled by the `Except PyErr` return type.

Instrumentation fields (`validatorCalls`, `repairCalls`, `writes`) record
how many times each collaborator was invoked and which artifact writes the
orchestrator performed; they are threaded through the loop exactly along
the Python control flow.
-/

namespace Internesh

/-- The backtick character, written via its code point. -/
def btick : Char := Char.ofNat 96

/-- Python `str.isspace`-style whitespace characters relevant to `str.strip()`:
space, tab, newline, carriage return, vertical tab, form feed. -/
def pyIsSpace (c : Char) : Bool :=
  c == ' ' || c == '\t' || c == '\n' || c == '\r' ||
  c == Char.ofNat 11 || c == Char.ofNat 12

/-- Python `s.strip()`: remove leading and trailing whitespace. -/
def pystrip (s : String) : String :=
  String.mk (((s.data.dropWhile pyIsSpace).reverse.dropWhile pyIsSpace).reverse)

/-- Helper for `hasTripleBacktick`: does the character list contain three
consecutive backticks? -/
def hasTripleAux : List Char → Bool
  | [] => false
  | a :: rest =>
    ((match rest with
      | b :: c :: _ => a == btick && b == btick && c == btick
      | _ => false) : Bool) || hasTripleAux rest

/-- Python `"\x60\x60\x60" in s`: substring test for a triple backtick. -/
def hasTripleBacktick (s : String) : Bool :=
  hasTripleAux s.data

/-- One step of the fence-stripping fold over the lines of the LLM reply:
a line whose stripped form starts with a triple backtick toggles the
`in_code_block` flag and is dropped; other lines are kept iff the flag is
set.  Embeds the `for line in lines` loop of `_fix_schema_with_llm`
(schema_manager.py lines 162-167) and `_process_input`
(unconfigured_agent.py lines 126-131). -/
def fenceStep (acc : List String × Bool) (line : String) : List String × Bool :=
  if (pystrip line).startsWith "```" then (acc.1, !acc.2)
  else if acc.2 then (acc.1 ++ [line], acc.2)
  else acc

/-- The markdown code-fence stripping applied to an LLM reply, followed by
Python's `.strip()`.  Embeds schema_manager.py lines 156-172 (and the
identical logic in unconfigured_agent.py lines 120-135): if the reply
contains a triple backtick, keep only the in-block lines; always trim the
result. -/
def extract_code_block (reply : String) : String :=
  let body :=
    if hasTripleBacktick reply then
      String.intercalate "\n" ((reply.splitOn "\n").foldl fenceStep ([], false)).1
    else reply
  pystrip body

/-- The `chat_completion` collaborator: takes (user_message, system_message),
returns the reply or `Except.error ()` when the call raises. -/
abbrev ChatOracle : Type := String → String → Except Unit String

/-- The user prompt built by `_fix_schema_with_llm` (schema_manager.py
lines 128-138). -/
def fix_prompt (error_message schema_content : String) : String :=
  "You are a Prisma schema expert. Fix the following Prisma schema based on the error message.\n\nError:\n" ++
  error_message ++
  "\n\nCurrent Schema:\n```prisma\n" ++
  schema_content ++
  "\n```\n\nPlease provide the fixed Prisma schema. Return ONLY the complete, corrected schema without any explanations or markdown formatting outside of the code block."

/-- The system message built by `_fix_schema_with_llm` (schema_manager.py
lines 141-149). -/
def fix_system_message : String :=
  "You are an expert at fixing Prisma schemas. Your job is to identify and fix syntax errors, validation issues, and schema problems in Prisma schema files.\n            \nWhen fixing schemas:\n1. Ensure all model definitions are correct\n2. Check that field types are valid\n3. Verify relation syntax is correct\n4. Do not change or add any extra information such as relations, fields, etc.\n\nReturn only the complete fixed schema in a prisma code block."

/-- `SchemaManager._fix_schema_with_llm` (schema_manager.py lines 114-176):
if no LLM client is configured, return the candidate unchanged; otherwise
send the correction prompt; if the call raises, the `except` clause returns
the candidate unchanged; on a reply, strip code fences and trim. -/
def fix_schema_with_llm (llm : Option ChatOracle)
    (schema_content error_message : String) : String :=
  match llm with
  | none => schema_content
  | some f =>
    match f (fix_prompt error_message schema_content) fix_system_message with
    | Except.error _ => schema_content
    | Except.ok fixed_schema => extract_code_block fixed_schema

/-- Outcome of the `subprocess.run(["prisma", "validate", ...])` call:
it completed with an exit code and captured output streams, or it raised
`FileNotFoundError` (executable missing), or some other exception. -/
inductive SubprocessOutcome where
  | completed (returncode : Int) (stdout stderr : String)
  | fileNotFound
  | otherError (msg : String)
deriving DecidableEq, Repr

/-- Result of one `_run_prisma_validate` call, together with whether the
temporary `temp_schema.prisma` file is still on disk when the call
returns. -/
structure PrismaRunResult where
  passed : Bool
  diagnostic : String
  tempFileRemains : Bool
deriving DecidableEq, Repr

/-- The "tool missing" diagnostic of `_run_prisma_validate`
(schema_manager.py line 106). -/
def prismaNotFoundMsg : String :=
  "Prisma CLI not found. Please install Prisma:\n  Python: pip install prisma\n  Node.js: npm install -g prisma"

/-- `SchemaManager._run_prisma_validate` (schema_manager.py lines 70-112):
writes the candidate to `temp_schema.prisma`, runs the subprocess, unlinks
the temp file, then inspects the exit code; the `except` clauses catch a
missing executable and any other exception.  The unlink statement sits
inside the `try` before the `except` clauses, so on the exception paths
the temp file written at the top of the `try` is never removed. -/
def run_prisma_validate (outcome : SubprocessOutcome) : PrismaRunResult :=
  match outcome with
  | SubprocessOutcome.completed returncode stdout stderr =>
    if returncode = 0 then
      { passed := true, diagnostic := "", tempFileRemains := false }
    else
      { passed := false
        diagnostic :=
          if stderr ≠ "" then stderr
          else if stdout ≠ "" then stdout
          else "Unknown validation error"
        tempFileRemains := false }
  | SubprocessOutcome.fileNotFound =>
    { passed := false, diagnostic := prismaNotFoundMsg, tempFileRemains := true }
  | SubprocessOutcome.otherError msg =>
    { passed := false
      diagnostic := "Error running prisma validate: " ++ msg
      tempFileRemains := true }

/-- A Python exception escaping `validate_schema`: the `NameError`
(`UnboundLocalError`) raised by the final `return` when the local
`error_message` was never assigned. -/
inductive PyErr where
  | nameError
deriving DecidableEq, Repr

/-- The dictionary returned by `validate_schema`, plus instrumentation:
how many validator subprocess calls and `_fix_schema_with_llm` repair calls
were made, and the contents passed to `set_schema` by the orchestrator, in
order. -/
structure VResult where
  success : Bool
  error : String
  fixed_schema : String
  attempts : Nat
  validatorCalls : Nat
  repairCalls : Nat
  writes : List String
deriving DecidableEq, Repr

/-- The `while attempts < max_retries` loop of `validate_schema`
(schema_manager.py lines 202-237), with `remaining = max_retries - attempts`
as the structural recursion measure.  The validator outcome of the i-th
subprocess call (0-indexed) is `validator i`.  `lastErr` is the Python
local `error_message`: `none` while unassigned.  When `remaining = 0` the
loop condition fails and control reaches the final `return`, which reads
`error_message` — a `NameError` if it was never assigned.  Inside the loop:
increment `attempts`, call the validator; on success persist `current` iff
it differs from the initial `schema_content` and return; otherwise repair
and continue when retries remain and an LLM client is configured, else
break to the final `return`. -/
def validate_loop (validator : Nat → SubprocessOutcome) (llm : Option ChatOracle)
    (schema_content : String) : Nat → String → Nat → Nat → Nat → List String →
    Option String → Except PyErr VResult
  | 0, current, attempts, vCalls, rCalls, writes, lastErr =>
    match lastErr with
    | none => Except.error PyErr.nameError
    | some e =>
      Except.ok
        { success := false, error := e, fixed_schema := current,
          attempts := attempts, validatorCalls := vCalls,
          repairCalls := rCalls, writes := writes }
  | r + 1, current, attempts, vCalls, rCalls, writes, _ =>
    let res := run_prisma_validate (validator vCalls)
    if res.passed then
      Except.ok
        { success := true, error := "", fixed_schema := current,
          attempts := attempts + 1, validatorCalls := vCalls + 1,
          repairCalls := rCalls,
          writes := if current ≠ schema_content then writes ++ [current] else writes }
    else if 0 < r ∧ llm.isSome then
      validate_loop validator llm schema_content r
        (fix_schema_with_llm llm current res.diagnostic)
        (attempts + 1) (vCalls + 1) (rCalls + 1) writes (some res.diagnostic)
    else
      Except.ok
        { success := false, error := res.diagnostic, fixed_schema := current,
          attempts := attempts + 1, validatorCalls := vCalls + 1,
          repairCalls := rCalls, writes := writes }

/-- `SchemaManager.validate_schema` (schema_manager.py lines 178-237):
empty content short-circuits with zero attempts; otherwise run the retry
loop starting from `attempts = 0`, `current_schema = schema_content`.
`max_retries` is a Python int, so it may be non-positive; `Int.toNat`
realises `max_retries - attempts` clamped at zero iterations. -/
def validate_schema (validator : Nat → SubprocessOutcome) (llm : Option ChatOracle)
    (schema_content : String) (max_retries : Int) : Except PyErr VResult :=
  if schema_content = "" then
    Except.ok
      { success := false, error := "Schema content is empty", fixed_schema := "",
        attempts := 0, validatorCalls := 0, repairCalls := 0, writes := [] }
  else
    validate_loop validator llm schema_content max_retries.toNat
      schema_content 0 0 0 [] none

/-- Filesystem state seen by the Artifact Store: whether the schema
directory exists, and the current content of the schema file (if any). -/
structure FS where
  dirExists : Bool
  schemaFile : Option String
deriving DecidableEq, Repr

/-- A filesystem error raised by `open`: `FileNotFoundError` when the
parent directory of the path does not exist. -/
inductive StorageErr where
  | fileNotFound
deriving DecidableEq, Repr

/-- `SchemaManager.__init__` (schema_manager.py lines 17-38): the
constructor runs `self.schema_dir.mkdir(parents=True, exist_ok=True)`,
creating the storage directory (and parents); the schema file itself is
untouched. -/
def init_manager (fs : FS) : FS :=
  { fs with dirExists := true }

/-- `SchemaManager.get_schema` (schema_manager.py lines 40-57): if the
schema path does not exist, return the empty string; otherwise return the
file content.  Total: never raises. -/
def get_schema (fs : FS) : String :=
  match fs.schemaFile with
  | none => ""
  | some content => content

/-- `SchemaManager.set_schema` (schema_manager.py lines 59-68): opens the
schema path for writing and writes `schema_content`.  No directory
creation happens here; when the storage directory is absent, `open`
raises `FileNotFoundError`.  A successful write fully replaces the file
content. -/
def set_schema (schema_content : String) (fs : FS) : Except StorageErr FS :=
  if fs.dirExists then
    Except.ok { fs with schemaFile := some schema_content }
  else
    Except.error StorageErr.fileNotFound

/-- The artifact writes performed during the schema-generation branch of
`UnconfiguredAgent._process_input` (unconfigured_agent.py lines 79-167),
as the ordered list of contents passed to `set_schema`.  `genOutcome` is
the outcome of the schema-generation `chat_completion` call (an
`Except.error` aborts the turn via the outer `except`, performing no
writes).  The generated reply is fence-stripped and trimmed, then
`validate_schema` runs with `max_retries=3` and the agent's LLM client
configured; on success the front-end itself calls
`set_schema(validation_result["fixed_schema"])` in addition to any write
the orchestrator performed. -/
def process_input_schema_writes (validator : Nat → SubprocessOutcome)
    (f : ChatOracle) (genOutcome : Except Unit String) : List String :=
  match genOutcome with
  | Except.error _ => []
  | Except.ok raw =>
    let schema_content := extract_code_block raw
    match validate_schema validator (some f) schema_content 3 with
    | Except.error _ => []
    | Except.ok r => r.writes ++ (if r.success then [r.fixed_schema] else [])

/-- The orchestrator's own writes at the same inputs, for comparison with
`process_input_schema_writes` (empty when `validate_schema` raises). -/
def orchestrator_schema_writes (validator : Nat → SubprocessOutcome)
    (llm : Option ChatOracle) (schema_content : String) (max_retries : Int) :
    List String :=
  match validate_schema validator llm schema_content max_retries with
  | Except.error _ => []
  | Except.ok r => r.writes

/-! ## Helper lemmas about the retry loop -/

/-- When at least one iteration remains, the loop always returns a result
(the `NameError` arm is reachable only with zero iterations). -/
theorem validate_loop_isOk (V : Nat → SubprocessOutcome) (L : Option ChatOracle)
    (S : String) :
    ∀ (r : Nat) (current : String) (attempts vCalls rCalls : Nat)
      (writes : List String) (lastErr : Option String), 0 < r →
      ∃ res, validate_loop V L S r current attempts vCalls rCalls writes lastErr =
        Except.ok res := by
  intro r
  induction r with
  | zero => intro _ _ _ _ _ _ h; exact absurd h (lt_irrefl 0)
  | succ k ih =>
    intro current attempts vCalls rCalls writes lastErr _
    simp only [validate_loop]
    split
    · exact ⟨_, rfl⟩
    · split
      · rename_i hguard
        exact ih _ _ _ _ _ _ hguard.1
      · exact ⟨_, rfl⟩

/-- Loop invariant: any result of the loop makes at most `remaining` further
validator calls and attempts; a successful result has an empty error, a
strictly increased attempt count, and appends exactly one write (the
accepted schema) iff it differs from the initial content; a failed result
performs no writes. -/
theorem validate_loop_inv (V : Nat → SubprocessOutcome) (L : Option ChatOracle)
    (S : String) :
    ∀ (r : Nat) (current : String) (attempts vCalls rCalls : Nat)
      (writes : List String) (lastErr : Option String) (res : VResult),
      validate_loop V L S r current attempts vCalls rCalls writes lastErr =
        Except.ok res →
      res.validatorCalls ≤ vCalls + r ∧
      res.attempts ≤ attempts + r ∧
      (res.success = true → res.error = "" ∧ attempts < res.attempts ∧
        res.writes =
          (if res.fixed_schema ≠ S then writes ++ [res.fixed_schema] else writes)) ∧
      (res.success = false → res.writes = writes) := by
  intro r
  induction r with
  | zero =>
    intro current attempts vCalls rCalls writes lastErr res h
    simp only [validate_loop] at h
    match lastErr, h with
    | some e, h =>
      simp only [Except.ok.injEq] at h
      subst h
      refine ⟨Nat.le_refl _, Nat.le_refl _, ?_, fun _ => rfl⟩
      intro hs; exact absurd hs (by simp)
  | succ k ih =>
    intro current attempts vCalls rCalls writes lastErr res h
    simp only [validate_loop] at h
    split at h
    · simp only [Except.ok.injEq] at h
      subst h
      refine ⟨?_, ?_, ?_, ?_⟩
      · show vCalls + 1 ≤ vCalls + (k + 1); omega
      · show attempts + 1 ≤ attempts + (k + 1); omega
      · intro _
        exact ⟨rfl, Nat.lt_succ_self _, rfl⟩
      · intro hs; exact absurd hs (by simp)
    · split at h
      · have := ih _ _ _ _ _ _ _ h
        have h1 := this.1
        have h2 := this.2.1
        refine ⟨by omega, by omega, ?_, this.2.2.2⟩
        intro hs
        obtain ⟨he, hlt, hw⟩ := this.2.2.1 hs
        exact ⟨he, by omega, hw⟩
      · simp only [Except.ok.injEq] at h
        subst h
        refine ⟨?_, ?_, ?_, fun _ => rfl⟩
        · show vCalls + 1 ≤ vCalls + (k + 1); omega
        · show attempts + 1 ≤ attempts + (k + 1); omega
        · intro hs; exact absurd hs (by simp)

/-- When every validator call fails and an LLM client is configured, the
loop runs all `remaining` iterations, making one validator call per
iteration and one repair call per iteration except the last, ends in
failure, and performs no writes. -/
theorem validate_loop_allfail (V : Nat → SubprocessOutcome) (L : Option ChatOracle)
    (S : String) (hL : L.isSome = true)
    (hV : ∀ i, (run_prisma_validate (V i)).passed = false) :
    ∀ (r : Nat), 0 < r → ∀ (current : String) (attempts vCalls rCalls : Nat)
      (writes : List String) (lastErr : Option String),
      ∃ res, validate_loop V L S r current attempts vCalls rCalls writes lastErr =
          Except.ok res ∧
        res.success = false ∧ res.attempts = attempts + r ∧
        res.validatorCalls = vCalls + r ∧ res.repairCalls = rCalls + (r - 1) ∧
        res.writes = writes := by
  intro r
  induction r with
  | zero => intro h; exact absurd h (lt_irrefl 0)
  | succ k ih =>
    intro _ current attempts vCalls rCalls writes lastErr
    match k, ih with
    | 0, _ =>
      have heq : validate_loop V L S 1 current attempts vCalls rCalls writes lastErr =
          Except.ok
            { success := false, error := (run_prisma_validate (V vCalls)).diagnostic,
              fixed_schema := current, attempts := attempts + 1,
              validatorCalls := vCalls + 1, repairCalls := rCalls, writes := writes } := by
        simp only [validate_loop, hV vCalls]
        simp
      exact ⟨_, heq, rfl, rfl, rfl, rfl, rfl⟩
    | k' + 1, ih =>
      obtain ⟨res, hres, hprops⟩ :=
        ih (Nat.succ_pos k')
          (fix_schema_with_llm L current (run_prisma_validate (V vCalls)).diagnostic)
          (attempts + 1) (vCalls + 1) (rCalls + 1) writes
          (some (run_prisma_validate (V vCalls)).diagnostic)
      refine ⟨res, ?_, hprops.1, by omega, by omega, by omega, hprops.2.2.2.2⟩
      simp only [validate_loop, hV vCalls]
      simp only [Bool.false_eq_true, if_false]
      rw [if_pos ⟨Nat.succ_pos k', hL⟩]
      exact hres

/-- When no LLM client is configured and the first validator call fails,
the loop breaks immediately after that single attempt. -/
theorem validate_loop_noLLM (V : Nat → SubprocessOutcome) (S : String)
    (r : Nat) (current : String) (attempts vCalls rCalls : Nat)
    (writes : List String) (lastErr : Option String)
    (hV : (run_prisma_validate (V vCalls)).passed = false) :
    validate_loop V none S (r + 1) current attempts vCalls rCalls writes lastErr =
      Except.ok
        { success := false, error := (run_prisma_validate (V vCalls)).diagnostic,
          fixed_schema := current, attempts := attempts + 1,
          validatorCalls := vCalls + 1, repairCalls := rCalls, writes := writes } := by
  simp only [validate_loop, hV]
  simp

/-! ## Claim theorems -/

/-- C1: for every `max_attempts ≥ 1` and non-empty initial candidate,
`validate_schema` performs at most `max_attempts` validator calls; if the
validator fails on every call and an LLM collaborator is configured, the
repair step runs exactly `max_attempts - 1` times and the result is
`success = false` with `attempts = max_attempts`; if no LLM collaborator is
configured and the validator fails, the loop terminates after exactly one
attempt with no repair invoked. -/
theorem C1_orchestrator_bounds (V : Nat → SubprocessOutcome) (L : Option ChatOracle)
    (S : String) (m : Int) (h1 : 1 ≤ m) (h2 : S ≠ "") :
    ∃ res, validate_schema V L S m = Except.ok res ∧
      res.validatorCalls ≤ m.toNat ∧
      ((∀ i, (run_prisma_validate (V i)).passed = false) → L.isSome = true →
        res.repairCalls = m.toNat - 1 ∧ res.success = false ∧
        res.attempts = m.toNat) ∧
      (L = none → (run_prisma_validate (V 0)).passed = false →
        res.attempts = 1 ∧ res.repairCalls = 0 ∧ res.success = false) := by
  have hm : 0 < m.toNat := by omega
  obtain ⟨res, hres⟩ := validate_loop_isOk V L S m.toNat S 0 0 0 [] none hm
  have hvs : validate_schema V L S m = Except.ok res := by
    simp only [validate_schema, if_neg h2]
    exact hres
  refine ⟨res, hvs, ?_, ?_, ?_⟩
  · have := (validate_loop_inv V L S m.toNat S 0 0 0 [] none res hres).1
    omega
  · intro hV hL
    obtain ⟨res2, hres2, hsucc, hatt, hvc, hrc, hw⟩ :=
      validate_loop_allfail V L S hL hV m.toNat hm S 0 0 0 [] none
    rw [hres] at hres2
    injection hres2 with h
    subst h
    exact ⟨by omega, hsucc, by omega⟩
  · intro hL0 hV0
    subst hL0
    obtain ⟨k, hk⟩ : ∃ k, m.toNat = k + 1 := ⟨m.toNat - 1, by omega⟩
    rw [hk] at hres
    have h := (validate_loop_noLLM V S k S 0 0 0 [] none hV0).symm.trans hres
    injection h with h
    exact ⟨by rw [← h], by rw [← h], by rw [← h]⟩

/-- Witness for C1 at a concrete always-failing validator with a configured
(erroring) LLM collaborator and `max_attempts = 2`. -/
theorem C1_orchestrator_bounds_witness :
    ∃ res, validate_schema (fun _ : Nat => SubprocessOutcome.completed 1 "" "e")
        (some (fun _ _ : String => Except.error ())) "s" 2 = Except.ok res ∧
      res.validatorCalls ≤ (2 : Int).toNat ∧
      ((∀ i : Nat,
          (run_prisma_validate ((fun _ : Nat => SubprocessOutcome.completed 1 "" "e") i)).passed = false) →
        (some (fun _ _ : String => Except.error ()) : Option ChatOracle).isSome = true →
        res.repairCalls = (2 : Int).toNat - 1 ∧ res.success = false ∧
        res.attempts = (2 : Int).toNat) ∧
      ((some (fun _ _ : String => Except.error ()) : Option ChatOracle) = none →
        (run_prisma_validate ((fun _ : Nat => SubprocessOutcome.completed 1 "" "e") 0)).passed = false →
        res.attempts = 1 ∧ res.repairCalls = 0 ∧ res.success = false) :=
  C1_orchestrator_bounds (fun _ : Nat => SubprocessOutcome.completed 1 "" "e")
    (some (fun _ _ : String => Except.error ())) "s" 2 (by decide) (by decide)

/-- C2: every result of `validate_schema` with `success = true` has an empty
error message and at least one attempt; an empty initial candidate yields,
for every `max_retries`, the failure record with diagnostic
"Schema content is empty", zero attempts and zero validator calls. -/
theorem C2_result_invariant (V : Nat → SubprocessOutcome) (L : Option ChatOracle)
    (S : String) (m : Int) :
    (∀ res, validate_schema V L S m = Except.ok res → res.success = true →
      res.error = "" ∧ 1 ≤ res.attempts) ∧
    (S = "" → validate_schema V L S m =
      Except.ok
        { success := false, error := "Schema content is empty", fixed_schema := "",
          attempts := 0, validatorCalls := 0, repairCalls := 0, writes := [] }) := by
  constructor
  · intro res hres hs
    by_cases hS : S = ""
    · simp only [validate_schema, if_pos hS, Except.ok.injEq] at hres
      rw [← hres] at hs
      exact absurd hs (by simp)
    · simp only [validate_schema, if_neg hS] at hres
      have := (validate_loop_inv V L S m.toNat S 0 0 0 [] none res hres).2.2.1 hs
      exact ⟨this.1, this.2.1⟩
  · intro hS
    simp only [validate_schema, if_pos hS]

/-- Witness for C2: a first-attempt success run and the empty-input case,
both at concrete inputs. -/
theorem C2_result_invariant_witness :
    ((⟨true, "", "s", 1, 1, 0, []⟩ : VResult).error = "" ∧
      1 ≤ (⟨true, "", "s", 1, 1, 0, []⟩ : VResult).attempts) ∧
    validate_schema (fun _ => SubprocessOutcome.completed 0 "" "") none "" 4 =
      Except.ok
        { success := false, error := "Schema content is empty", fixed_schema := "",
          attempts := 0, validatorCalls := 0, repairCalls := 0, writes := [] } :=
  ⟨(C2_result_invariant (fun _ => SubprocessOutcome.completed 0 "" "") none "s" 1).1
      ⟨true, "", "s", 1, 1, 0, []⟩ rfl rfl,
    (C2_result_invariant (fun _ => SubprocessOutcome.completed 0 "" "") none "" 4).2 rfl⟩

/-- C10: calling `validate_schema` with non-empty content and
`max_retries ≤ 0` never runs the loop body, so the final `return` reads the
unassigned local `error_message` and the call raises a `NameError` instead
of returning a result: the precondition `max_attempts ≥ 1` is necessary for
totality. -/
theorem C10_nonpositive_retries_name_error (V : Nat → SubprocessOutcome)
    (L : Option ChatOracle) (S : String) (m : Int) (h1 : S ≠ "") (h2 : m ≤ 0) :
    validate_schema V L S m = Except.error PyErr.nameError := by
  have hm : m.toNat = 0 := by omega
  simp only [validate_schema, if_neg h1, hm]
  rfl

/-- Witness for C10 at `schema_content = "model A"`, `max_retries = 0`. -/
theorem C10_nonpositive_retries_name_error_witness :
    validate_schema (fun _ => SubprocessOutcome.completed 0 "" "") none "model A" 0 =
      Except.error PyErr.nameError :=
  C10_nonpositive_retries_name_error (fun _ => SubprocessOutcome.completed 0 "" "")
    none "model A" 0 (by decide) (by decide)

/-- C3 counterexample: when launching the validator subprocess raises
`FileNotFoundError` (the executable is missing), `_run_prisma_validate`
returns with the temporary schema file still on disk — the unlink sits
inside the `try` before the `except` clauses, so the claimed
"cleanup on every exit path" fails on this input. -/
theorem C3_counterexample_temp_left_behind :
    (run_prisma_validate SubprocessOutcome.fileNotFound).tempFileRemains = true :=
  rfl

/-- C3 amended: the temporary file is removed on every path on which the
subprocess call completes (success or validation failure), but on the
exception paths — the executable missing, or any other error raised while
running the validator — the temporary file is left behind. -/
theorem C3_cleanup_only_on_completion (rc : Int) (stdout stderr msg : String) :
    (run_prisma_validate (SubprocessOutcome.completed rc stdout stderr)).tempFileRemains
        = false ∧
    (run_prisma_validate SubprocessOutcome.fileNotFound).tempFileRemains = true ∧
    (run_prisma_validate (SubprocessOutcome.otherError msg)).tempFileRemains = true := by
  refine ⟨?_, rfl, rfl⟩
  simp only [run_prisma_validate]
  split <;> rfl

/-- C4: the Validator Adapter returns `passed = true` with an empty
diagnostic iff the subprocess exits with status zero; on a non-zero exit it
returns `passed = false` with the diagnostic taken from stderr, falling
back to stdout, then to "Unknown validation error"; and when the executable
cannot be located it returns `passed = false` with the install-instructions
diagnostic (no exception escapes: `run_prisma_validate` is total). -/
theorem C4_adapter_contract (o : SubprocessOutcome) :
    ((run_prisma_validate o).passed = true ↔
      ∃ stdout stderr, o = SubprocessOutcome.completed 0 stdout stderr) ∧
    ((run_prisma_validate o).passed = true → (run_prisma_validate o).diagnostic = "") ∧
    (∀ rc stdout stderr, o = SubprocessOutcome.completed rc stdout stderr → rc ≠ 0 →
      (run_prisma_validate o).passed = false ∧
      (run_prisma_validate o).diagnostic =
        (if stderr ≠ "" then stderr
         else if stdout ≠ "" then stdout else "Unknown validation error")) ∧
    (o = SubprocessOutcome.fileNotFound →
      (run_prisma_validate o).passed = false ∧
      (run_prisma_validate o).diagnostic = prismaNotFoundMsg) := by
  refine ⟨?_, ?_, ?_, ?_⟩
  · constructor
    · intro h
      match o, h with
      | SubprocessOutcome.completed rc stdout stderr, h =>
        simp only [run_prisma_validate] at h
        split at h
        · rename_i h0; exact ⟨stdout, stderr, by rw [h0]⟩
        · exact absurd h (by simp)
    · rintro ⟨stdout, stderr, rfl⟩
      rfl
  · intro h
    match o, h with
    | SubprocessOutcome.completed rc stdout stderr, h =>
      simp only [run_prisma_validate] at h ⊢
      by_cases h0 : rc = 0
      · rw [if_pos h0]
      · rw [if_neg h0] at h
        exact absurd h (by simp)
  · rintro rc stdout stderr rfl hrc
    refine ⟨by simp [run_prisma_validate, hrc], ?_⟩
    simp [run_prisma_validate, hrc]
  · rintro rfl
    exact ⟨rfl, rfl⟩

/-- Witness for C4: the contract evaluated at a zero-exit outcome, a
non-zero-exit outcome with empty stderr and non-empty stdout, and the
missing-executable outcome. -/
theorem C4_adapter_contract_witness :
    (run_prisma_validate (SubprocessOutcome.completed 0 "o" "e")).diagnostic = "" ∧
    ((run_prisma_validate (SubprocessOutcome.completed 2 "out" "")).passed = false ∧
      (run_prisma_validate (SubprocessOutcome.completed 2 "out" "")).diagnostic =
        (if ("" : String) ≠ "" then ""
         else if ("out" : String) ≠ "" then "out"
         else "Unknown validation error")) ∧
    ((run_prisma_validate SubprocessOutcome.fileNotFound).passed = false ∧
      (run_prisma_validate SubprocessOutcome.fileNotFound).diagnostic =
        prismaNotFoundMsg) := by
  refine ⟨?_, ?_, ?_⟩
  · exact (C4_adapter_contract (SubprocessOutcome.completed 0 "o" "e")).2.1 rfl
  · have h := (C4_adapter_contract (SubprocessOutcome.completed 2 "out" "")).2.2.1
      2 "out" "" rfl (by decide)
    exact ⟨h.1, h.2⟩
  · exact (C4_adapter_contract SubprocessOutcome.fileNotFound).2.2.2 rfl

/-- C6: `_fix_schema_with_llm` is a no-op returning the candidate unchanged
when no LLM client is configured, and returns the original candidate
unchanged when the `chat_completion` call raises; in neither case does it
raise (it is a total function into `String`). -/
theorem C6_repair_degrades_to_noop (candidate diagnostic : String) :
    fix_schema_with_llm none candidate diagnostic = candidate ∧
    ∀ f : ChatOracle,
      f (fix_prompt diagnostic candidate) fix_system_message = Except.error () →
      fix_schema_with_llm (some f) candidate diagnostic = candidate := by
  refine ⟨rfl, ?_⟩
  intro f hf
  simp only [fix_schema_with_llm, hf]

/-- Witness for C6 at a concrete candidate, diagnostic, and always-raising
LLM collaborator. -/
theorem C6_repair_degrades_to_noop_witness :
    fix_schema_with_llm none "model A" "boom" = "model A" ∧
    fix_schema_with_llm (some (fun _ _ : String => Except.error ())) "model A" "boom"
      = "model A" :=
  ⟨(C6_repair_degrades_to_noop "model A" "boom").1,
    (C6_repair_degrades_to_noop "model A" "boom").2
      (fun _ _ : String => Except.error ()) rfl⟩

/-- C7: Artifact Store round-trip — whatever `set_schema` successfully
writes, `get_schema` reads back exactly; and reading when no schema file
exists returns the empty string (and never fails: `get_schema` is total). -/
theorem C7_store_roundtrip :
    (∀ (X : String) (fs fs' : FS), set_schema X fs = Except.ok fs' →
      get_schema fs' = X) ∧
    (∀ fs : FS, fs.schemaFile = none → get_schema fs = "") := by
  constructor
  · intro X fs fs' h
    simp only [set_schema] at h
    split at h
    · simp only [Except.ok.injEq] at h
      rw [← h]
      rfl
    · exact absurd h (by simp)
  · intro fs h
    simp only [get_schema, h]

/-- Witness for C7: a concrete write of the empty string read back, and a
read from a store with no artifact. -/
theorem C7_store_roundtrip_witness :
    get_schema { dirExists := true, schemaFile := some "" } = "" ∧
    get_schema { dirExists := true, schemaFile := none } = "" :=
  ⟨C7_store_roundtrip.1 "" { dirExists := true, schemaFile := none }
      { dirExists := true, schemaFile := some "" } rfl,
    C7_store_roundtrip.2 { dirExists := true, schemaFile := none } rfl⟩

/-- C8 counterexample: `set_schema` itself performs no directory creation —
when the storage directory is absent at the time of the call, the write
raises `FileNotFoundError` instead of succeeding, refuting the claim that
`write` creates missing parent directories. -/
theorem C8_counterexample_write_needs_dir :
    set_schema "model A" { dirExists := false, schemaFile := none } =
      Except.error StorageErr.fileNotFound :=
  rfl

/-- C8 amended: the storage directory (with any missing parents) is created
by the manager's constructor, not by `write`; after initialization `write`
succeeds and fully overwrites the file content, while calling `write` with
the directory absent fails with a missing-file error. -/
theorem C8_init_creates_dir_write_overwrites (X : String) (fs : FS) :
    set_schema X (init_manager fs) =
      Except.ok { dirExists := true, schemaFile := some X } ∧
    (fs.dirExists = false →
      set_schema X fs = Except.error StorageErr.fileNotFound) ∧
    (fs.dirExists = true →
      set_schema X fs = Except.ok { fs with schemaFile := some X }) := by
  refine ⟨rfl, ?_, ?_⟩
  · intro h
    simp only [set_schema, h]
    rfl
  · intro h
    simp only [set_schema, h]
    rfl

/-- Witness for C8 (amended) at a concrete content and filesystem states
with the directory absent and present. -/
theorem C8_init_creates_dir_write_overwrites_witness :
    set_schema "x" (init_manager { dirExists := false, schemaFile := none }) =
      Except.ok { dirExists := true, schemaFile := some "x" } ∧
    set_schema "x" { dirExists := false, schemaFile := none } =
      Except.error StorageErr.fileNotFound ∧
    set_schema "x" { dirExists := true, schemaFile := some "old" } =
      Except.ok { dirExists := true, schemaFile := some "x" } :=
  ⟨(C8_init_creates_dir_write_overwrites "x" { dirExists := false, schemaFile := none }).1,
    (C8_init_creates_dir_write_overwrites "x" { dirExists := false, schemaFile := none }).2.1 rfl,
    (C8_init_creates_dir_write_overwrites "x" { dirExists := true, schemaFile := some "old" }).2.2 rfl⟩

/-- C9: fence stripping is the identity up to whitespace trimming on
replies that contain no triple backtick: `extract_code_block` returns
exactly the Python `strip()` of such a reply. -/
theorem C9_strip_idempotent_without_fences (reply : String)
    (h : hasTripleBacktick reply = false) :
    extract_code_block reply = pystrip reply := by
  simp only [extract_code_block, h]
  rfl

/-- Witness for C9 at a concrete fence-free reply with surrounding
whitespace. -/
theorem C9_strip_idempotent_without_fences_witness :
    hasTripleBacktick "  model A \n" = false ∧
    extract_code_block "  model A \n" = pystrip "  model A \n" :=
  ⟨by decide, C9_strip_idempotent_without_fences "  model A \n" (by decide)⟩

/-- C5 counterexample: on a first-attempt pass of the unmodified candidate
the orchestrator performs no artifact write, yet the front-end's
`_process_input` still calls `set_schema` with the accepted schema — so the
front-end does perform an artifact write beyond those of the orchestrator,
refuting the claim at this input. -/
theorem C5_counterexample_frontend_extra_write :
    process_input_schema_writes (fun _ : Nat => SubprocessOutcome.completed 0 "" "")
        (fun _ _ : String => Except.error ()) (Except.ok "x") = ["x"] ∧
    orchestrator_schema_writes (fun _ : Nat => SubprocessOutcome.completed 0 "" "")
        (some (fun _ _ : String => Except.error ())) (extract_code_block "x") 3 = [] :=
  ⟨rfl, rfl⟩

/-- C5 amended: the orchestrator writes the artifact only on a successful
run and only when the accepted candidate differs from the initial one (so
failed runs, and a pass of the unmodified candidate, perform no
orchestrator write); the front-end, however, performs one additional
`set_schema` write of the accepted schema on every successful run (and none
on failure). -/
theorem C5_writes_characterization (V : Nat → SubprocessOutcome)
    (L : Option ChatOracle) (S : String) (m : Int) (f : ChatOracle) (raw : String) :
    (∀ res, validate_schema V L S m = Except.ok res →
      (res.success = false → res.writes = []) ∧
      (res.success = true →
        res.writes = if res.fixed_schema ≠ S then [res.fixed_schema] else [])) ∧
    (∀ res, validate_schema V (some f) (extract_code_block raw) 3 = Except.ok res →
      process_input_schema_writes V f (Except.ok raw) =
        res.writes ++ (if res.success then [res.fixed_schema] else [])) := by
  constructor
  · intro res hres
    by_cases hS : S = ""
    · simp only [validate_schema, if_pos hS, Except.ok.injEq] at hres
      rw [← hres]
      exact ⟨fun _ => rfl, fun hs => absurd hs (by simp)⟩
    · simp only [validate_schema, if_neg hS] at hres
      have hinv := validate_loop_inv V L S m.toNat S 0 0 0 [] none res hres
      refine ⟨hinv.2.2.2, ?_⟩
      intro hs
      rw [(hinv.2.2.1 hs).2.2]
      split <;> rfl
  · intro res hres
    simp only [process_input_schema_writes, hres]

/-- Witness for C5 (amended): a concrete first-attempt pass of the
unmodified candidate, where the orchestrator writes nothing and the
front-end writes the accepted schema once. -/
theorem C5_writes_characterization_witness :
    ((⟨true, "", "x", 1, 1, 0, []⟩ : VResult).writes =
      if (⟨true, "", "x", 1, 1, 0, []⟩ : VResult).fixed_schema ≠ "x"
      then [(⟨true, "", "x", 1, 1, 0, []⟩ : VResult).fixed_schema] else []) ∧
    process_input_schema_writes (fun _ : Nat => SubprocessOutcome.completed 0 "" "")
        (fun _ _ : String => Except.error ()) (Except.ok "x") =
      (⟨true, "", "x", 1, 1, 0, []⟩ : VResult).writes ++
        (if (⟨true, "", "x", 1, 1, 0, []⟩ : VResult).success
         then [(⟨true, "", "x", 1, 1, 0, []⟩ : VResult).fixed_schema] else []) :=
  ⟨((C5_writes_characterization (fun _ : Nat => SubprocessOutcome.completed 0 "" "")
        (some (fun _ _ : String => Except.error ())) "x" 1
        (fun _ _ : String => Except.error ()) "x").1
      ⟨true, "", "x", 1, 1, 0, []⟩ rfl).2 rfl,
    (C5_writes_characterization (fun _ : Nat => SubprocessOutcome.completed 0 "" "")
        (some (fun _ _ : String => Except.error ())) "x" 1
        (fun _ _ : String => Except.error ()) "x").2
      ⟨true, "", "x", 1, 1, 0, []⟩ rfl⟩

end Internesh
